import Mathlib

/-!
Verification of the Mail Composer & Dispatcher specification against the
source of `gmail_sender.py` (class `GmailSender`) and `calculate.py`.

The embedding follows the Python source line by line:

* `composeMessage` embeds `GmailSender.send_email` lines 64-81: the
  construction of the `MIMEMultipart` message (headers From/To/Subject,
  optional Cc, the single `MIMEText` body part, and the attachment loop
  delegating to `_attach_file`).  The filesystem is passed explicitly as a
  function from paths to `ReadResult` (success with bytes, file-not-found,
  or any other read failure — the two `except` clauses of `_attach_file`).
  Recorded warnings (the `print` calls of `_attach_file`) are returned
  alongside the message.
* `recipients` embeds lines 83-88: the envelope list handed to
  `server.sendmail`.
* `sendEmail` embeds the whole `try/except` body of `send_email`
  (lines 63-123).  The external SMTP collaborator is modelled as a
  `Transport` oracle giving each step's outcome (`none` = the call
  returns normally, `some e` = the call raises `e`).  The Python
  exceptions are the inductive `SMTPError`: `auth` for
  `smtplib.SMTPAuthenticationError`, `smtp` for any other
  `smtplib.SMTPException`, `other` for any other `Exception`; the three
  `except` clauses of the source try them in exactly this order, so the
  handler dispatch is total on `SMTPError`.  The result record carries the
  function's actual return value (`success`, the Python `bool`), plus the
  observable effects of the run: the first line printed by the handler
  that ran (`errorMsg`), whether `smtplib.SMTP(...)` returned a live
  connection (`acquired`), whether `server.quit()` was invoked before
  returning (`releaseInvoked`), and the attachment warnings.
* `divide_numbers` embeds `calculate.py` lines 11-15, with Python numbers
  modelled as rationals and `raise ValueError` as `Except.error`.

Bytes are modelled as natural numbers reduced mod 256 where the encoding
consumes them.  `encodebytes` mirrors `email.encoders.encode_base64`'s
underlying `base64.encodebytes`: base64 in 57-byte input chunks, each
chunk followed by a newline.
-/

/-- Python truthiness of an optional list argument: `if cc:` is taken when
the argument is neither `None` nor the empty list. -/
def truthy : Option (List String) → Bool
  | none => false
  | some l => !l.isEmpty

/-- The base64 alphabet, as characters. -/
def b64Chars : List Char :=
  "ABCDEFGHIJKLMNOPQRSTUVWXYZabcdefghijklmnopqrstuvwxyz0123456789+/".toList

/-- The base64 digit for a sextet. -/
def b64Char (n : Nat) : Char := b64Chars.getD n '?'

/-- Plain base64 of a byte list (groups of three bytes to four digits,
with `=` padding). -/
def base64Encode : List Nat → String
  | [] => ""
  | [a] =>
      let n := (a % 256) * 65536
      String.mk [b64Char (n / 262144), b64Char (n / 4096 % 64), '=', '=']
  | [a, b] =>
      let n := (a % 256) * 65536 + (b % 256) * 256
      String.mk [b64Char (n / 262144), b64Char (n / 4096 % 64), b64Char (n / 64 % 64), '=']
  | a :: b :: c :: rest =>
      let n := (a % 256) * 65536 + (b % 256) * 256 + (c % 256)
      String.mk [b64Char (n / 262144), b64Char (n / 4096 % 64), b64Char (n / 64 % 64),
        b64Char (n % 64)] ++ base64Encode rest

/-- Structural worker for `encodebytes`: each step emits one 57-byte
chunk; the first argument is the remaining length, so every call site in
this file reduces definitionally. -/
def encodebytesAux : Nat → List Nat → String
  | _, [] => ""
  | 0, _ :: _ => ""
  | fuel + 1, a :: rest =>
      base64Encode ((a :: rest).take 57) ++ "\n"
        ++ encodebytesAux fuel ((a :: rest).drop 57)

/-- The encoding performed by `email.encoders.encode_base64` on the
attachment payload (`base64.encodebytes`): base64 of each 57-byte input
chunk, each chunk terminated by a newline.  Each step consumes at least
one byte, so the list length is sufficient fuel. -/
def encodebytes (bs : List Nat) : String := encodebytesAux bs.length bs

/-- Outcome of opening and reading an attachment path, the three cases the
source distinguishes: a successful read of the raw bytes, the
`FileNotFoundError` caught at line 146, or any other `Exception` caught at
line 148. -/
inductive ReadResult where
  | ok (bytes : List Nat)
  | notFound
  | failed (msg : String)
  deriving Repr, DecidableEq

/-- A part of the multipart message: the `MIMEText` body part (payload and
subtype, `text/plain` or `text/html`), or a `MIMEBase` attachment part
(maintype, subtype, base64-encoded payload, Content-Disposition header
value). -/
inductive MimePart where
  | text (payload : String) (subtype : String)
  | attachment (maintype : String) (subtype : String) (payload : String)
      (disposition : String)
  deriving Repr, DecidableEq

/-- Whether a part is the text body part (as opposed to an attachment). -/
def MimePart.isText : MimePart → Bool
  | .text _ _ => true
  | .attachment _ _ _ _ => false

/-- `os.path.basename` for the slash-separated paths the source feeds it:
the suffix after the last slash (a fold that restarts on every slash). -/
def basename (p : String) : String :=
  String.mk (p.toList.foldl (fun acc c => if c = '/' then [] else acc ++ [c]) [])

/-- Embedding of `GmailSender._attach_file` (lines 125-149): on a readable
path, the produced attachment part (`application/octet-stream` payload
base64-encoded, `Content-Disposition: attachment; filename= <basename>`);
on an unreadable path, no part and the warning the handler prints.  The
first component is the part appended to the message, the second the
recorded warning. -/
def attachFile (fs : String → ReadResult) (file_path : String) :
    Option MimePart × Option String :=
  match fs file_path with
  | .ok bytes =>
      (some (.attachment "application" "octet-stream" (encodebytes bytes)
        ("attachment; filename= " ++ basename file_path)), none)
  | .notFound => (none, some ("  Warning: File not found: " ++ file_path))
  | .failed m => (none, some ("  Warning: Could not attach " ++ file_path ++ ": " ++ m))

/-- The transport-ready message: the headers set on the `MIMEMultipart`
container, in the order the source sets them, and the attached parts. -/
structure ComposedMessage where
  headers : List (String × String)
  parts : List MimePart
  deriving Repr, DecidableEq

/-- Embedding of the message-construction phase of `send_email`
(lines 64-81): From/To/Subject headers, a Cc header holding
`', '.join(cc)` when `cc` is truthy, the single `MIMEText` body part
(`html` when `is_html` else `plain`), then one attachment part per
readable attachment path.  Returns the composed message and the recorded
attachment warnings, in order. -/
def composeMessage (sender_email recipient_email subject message_body : String)
    (is_html : Bool) (cc : Option (List String)) (attachments : Option (List String))
    (fs : String → ReadResult) : ComposedMessage × List String :=
  let baseHeaders := [("From", sender_email), ("To", recipient_email), ("Subject", subject)]
  let headers :=
    if truthy cc then baseHeaders ++ [("Cc", String.intercalate ", " (cc.getD []))]
    else baseHeaders
  let msg_type := if is_html then "html" else "plain"
  let results :=
    if truthy attachments then (attachments.getD []).map (attachFile fs) else []
  (⟨headers, MimePart.text message_body msg_type :: results.filterMap Prod.fst⟩,
   results.filterMap Prod.snd)

/-- Embedding of the envelope construction (lines 83-88): the list passed
to `server.sendmail`, built as `[recipient_email]` extended by `cc` when
truthy and then by `bcc` when truthy. -/
def recipients (recipient_email : String) (cc bcc : Option (List String)) :
    List String :=
  [recipient_email] ++ (if truthy cc then cc.getD [] else [])
    ++ (if truthy bcc then bcc.getD [] else [])

/-- The exception raised by a transport step, classified the way the
source's `except` clauses classify it: `smtplib.SMTPAuthenticationError`,
any other `smtplib.SMTPException` (carrying `str(e)`), or any other
`Exception` (carrying `str(e)`). -/
inductive SMTPError where
  | auth
  | smtp (msg : String)
  | other (msg : String)
  deriving Repr, DecidableEq

/-- The first line printed by the `except` clause that handles the error:
clause order in the source is authentication, then SMTP, then generic, so
dispatch is by constructor. -/
def handlerMsg : SMTPError → String
  | .auth => "✗ Authentication failed. Please check your email and App Password."
  | .smtp m => "✗ SMTP error occurred: " ++ m
  | .other m => "✗ An error occurred: " ++ m

/-- Oracle for the external SMTP collaborator: the outcome of each call
`send_email` makes, in source order — `smtplib.SMTP(...)` (connect),
`server.starttls()`, `server.login(...)`, `server.sendmail(...)`,
`server.quit()`.  `none` means the call returns normally, `some e` that it
raises `e`. -/
structure Transport where
  connectR : Option SMTPError
  starttlsR : Option SMTPError
  loginR : Option SMTPError
  sendmailR : Option SMTPError
  quitR : Option SMTPError
  deriving Repr, DecidableEq

/-- The error the `try` block raises, if any: the outcome of the first
failing step, the later steps being unreached. -/
def firstError (t : Transport) : Option SMTPError :=
  match t.connectR with
  | some e => some e
  | none =>
    match t.starttlsR with
    | some e => some e
    | none =>
      match t.loginR with
      | some e => some e
      | none =>
        match t.sendmailR with
        | some e => some e
        | none => t.quitR

/-- The observable result of one `send_email` call: `success` is the
returned Python `bool`; `errorMsg` the first line printed by the `except`
clause that ran (`none` on success); `acquired` whether
`smtplib.SMTP(...)` completed and yielded a connection; `releaseInvoked`
whether `server.quit()` was called before returning; `warnings` the
attachment warnings recorded during composition. -/
structure SendResult where
  success : Bool
  errorMsg : Option String
  acquired : Bool
  releaseInvoked : Bool
  warnings : List String
  deriving Repr, DecidableEq

/-- Embedding of `GmailSender.send_email` (lines 63-123).  The body
composes the message and the envelope, then performs the transport calls
in order; the first step that raises transfers control to the matching
`except` clause, which prints its message and returns `False`.  No
`finally` or scoping construct exists in the source: `server.quit()` is
the only release call, executed solely when every preceding step
succeeded. -/
def sendEmail (sender_email password recipient_email subject message_body : String)
    (is_html : Bool) (cc bcc attachments : Option (List String))
    (fs : String → ReadResult) (t : Transport) : SendResult :=
  let composed := composeMessage sender_email recipient_email subject message_body
    is_html cc attachments fs
  let warns := composed.2
  let _envelope := recipients recipient_email cc bcc
  match t.connectR with
  | some e => ⟨false, some (handlerMsg e), false, false, warns⟩
  | none =>
    match t.starttlsR with
    | some e => ⟨false, some (handlerMsg e), true, false, warns⟩
    | none =>
      match t.loginR with
      | some e => ⟨false, some (handlerMsg e), true, false, warns⟩
      | none =>
        match t.sendmailR with
        | some e => ⟨false, some (handlerMsg e), true, false, warns⟩
        | none =>
          match t.quitR with
          | some e => ⟨false, some (handlerMsg e), true, true, warns⟩
          | none => ⟨true, none, true, true, warns⟩

/-- Embedding of `divide_numbers` from `calculate.py` (lines 11-15):
numbers as rationals, `raise ValueError(...)` as `Except.error` with the
source's message. -/
def divide_numbers (a b : ℚ) : Except String ℚ :=
  if b = 0 then Except.error "Cannot divide by zero" else Except.ok (a / b)

/-- Whether a path is readable under the given filesystem (the case in
which `_attach_file` produces a part). -/
def isReadable (fs : String → ReadResult) (p : String) : Bool :=
  match fs p with
  | .ok _ => true
  | _ => false

/-- The Cc header of a composed message, if one was set. -/
def ccHeader (m : ComposedMessage) : Option String :=
  (m.headers.find? (fun kv => kv.1 == "Cc")).map Prod.snd

/-- A filesystem with no readable files, for concrete runs without
attachments. -/
def noFs : String → ReadResult := fun _ => ReadResult.notFound

/-- A transport run in which `server.login` raises
`smtplib.SMTPAuthenticationError` and every other step would succeed. -/
def authFailTransport : Transport :=
  { connectR := none, starttlsR := none, loginR := some SMTPError.auth,
    sendmailR := none, quitR := none }

/-- A transport run in which `server.sendmail` raises an
`smtplib.SMTPException` and every other step would succeed. -/
def smtpFailTransport : Transport :=
  { connectR := none, starttlsR := none, loginR := none,
    sendmailR := some (SMTPError.smtp "connection unexpectedly closed"), quitR := none }

/-- Discarding an untaken truthiness guard around `Option.getD`: extending
by a falsy optional list is the same as extending by its `getD []`. -/
theorem truthy_getD (o : Option (List String)) :
    (if truthy o then o.getD [] else []) = o.getD [] := by
  cases o with
  | none => simp [truthy]
  | some l => cases l <;> simp [truthy]

/-- The returned boolean of a run is true exactly when no transport step
raised. -/
theorem sendEmail_success_eq (s pw r subj body : String) (ih : Bool)
    (cc bcc atts : Option (List String)) (fs : String → ReadResult) (t : Transport) :
    (sendEmail s pw r subj body ih cc bcc atts fs t).success = (firstError t).isNone := by
  obtain ⟨c, st, lg, sm, q⟩ := t
  cases c <;> cases st <;> cases lg <;> cases sm <;> cases q <;>
    simp [sendEmail, firstError]

/-- C1, counterexample.  The claim says the connection, once acquired, is
released before `send` returns on every exit path.  On the
authentication-failure path the source's `except` clause returns `False`
without any `quit`/close call: the connection was acquired yet no release
is invoked. -/
theorem send_no_release_on_auth_failure :
    (sendEmail "me@gmail.com" "pw" "r@x.com" "Subj" "Hello" false none none none
      noFs authFailTransport).acquired = true ∧
    (sendEmail "me@gmail.com" "pw" "r@x.com" "Subj" "Hello" false none none none
      noFs authFailTransport).releaseInvoked = false :=
  ⟨rfl, rfl⟩

/-- C1, amended.  The connection is acquired exactly when
`smtplib.SMTP(...)` returns normally, and the release call
(`server.quit()`) is invoked exactly when connect, starttls, login and
sendmail all succeed: every exceptional exit after acquisition returns
without releasing the connection. -/
theorem send_release_only_on_full_success (s pw r subj body : String) (ih : Bool)
    (cc bcc atts : Option (List String)) (fs : String → ReadResult) (t : Transport) :
    ((sendEmail s pw r subj body ih cc bcc atts fs t).acquired = true ↔
      t.connectR = none) ∧
    ((sendEmail s pw r subj body ih cc bcc atts fs t).releaseInvoked = true ↔
      (t.connectR = none ∧ t.starttlsR = none ∧ t.loginR = none ∧ t.sendmailR = none)) := by
  obtain ⟨c, st, lg, sm, q⟩ := t
  cases c <;> cases st <;> cases lg <;> cases sm <;> cases q <;> simp [sendEmail]

/-- C2, counterexample.  The claim says a failing send returns an outcome
carrying a classified error kind that distinguishes an authentication
failure from a transport-protocol failure.  The source returns a bare
`bool`: an authentication failure and an SMTP failure produce the very
same return value `False`, so no classification is available to the
caller programmatically. -/
theorem send_failure_return_indistinguishable :
    (sendEmail "me@gmail.com" "pw" "r@x.com" "Subj" "Hello" false none none none
      noFs authFailTransport).success =
      (sendEmail "me@gmail.com" "pw" "r@x.com" "Subj" "Hello" false none none none
        noFs smtpFailTransport).success ∧
    (sendEmail "me@gmail.com" "pw" "r@x.com" "Subj" "Hello" false none none none
      noFs authFailTransport).success = false :=
  ⟨rfl, rfl⟩

/-- C2, amended.  A failing send returns only the boolean `False`; the
failure category is reflected solely in the printed status message, which
is the handler line for the first raising step (distinct text per
category), not in the returned value. -/
theorem send_failure_reported_only_in_message (s pw r subj body : String) (ih : Bool)
    (cc bcc atts : Option (List String)) (fs : String → ReadResult) (t : Transport) :
    (sendEmail s pw r subj body ih cc bcc atts fs t).errorMsg =
      (firstError t).map handlerMsg ∧
    (sendEmail s pw r subj body ih cc bcc atts fs t).success = !(firstError t).isSome := by
  obtain ⟨c, st, lg, sm, q⟩ := t
  cases c <;> cases st <;> cases lg <;> cases sm <;> cases q <;>
    simp [sendEmail, firstError]

/-- C3, counterexample.  The claim says the envelope is a set union in
which an address appearing in more than one role occurs only once.  With
the same address as To recipient and cc entry, the source's list contains
it twice. -/
theorem recipients_duplicate_address :
    recipients "a@x.com" (some ["a@x.com"]) none = ["a@x.com", "a@x.com"] ∧
    (recipients "a@x.com" (some ["a@x.com"]) none).count "a@x.com" = 2 := by
  constructor
  · rfl
  · decide

/-- C3, amended.  The envelope is the ordered concatenation of the
recipient, the cc addresses and the bcc addresses: its membership is
exactly the union of the three roles, but duplicates are retained — an
address appearing in several roles appears once per role. -/
theorem recipients_concat_characterization (r : String) (cc bcc : Option (List String)) :
    recipients r cc bcc = [r] ++ cc.getD [] ++ bcc.getD [] ∧
    ∀ a : String, a ∈ recipients r cc bcc ↔ (a = r ∨ a ∈ cc.getD [] ∨ a ∈ bcc.getD []) := by
  have h1 : recipients r cc bcc = [r] ++ cc.getD [] ++ bcc.getD [] := by
    simp [recipients, truthy_getD]
  refine ⟨h1, fun a => ?_⟩
  rw [h1]
  simp [or_assoc]

/-- C4.  Every transport failure is caught by one of the three `except`
clauses and converted into the returned outcome — a handler message is
printed exactly when the run fails, and no error escapes `send_email` —
and the returned value is `True` precisely when every step of the
transport interaction (connect, starttls, login, sendmail, quit)
completes without the collaborator raising. -/
theorem send_success_iff_transport_ok (s pw r subj body : String) (ih : Bool)
    (cc bcc atts : Option (List String)) (fs : String → ReadResult) (t : Transport) :
    ((sendEmail s pw r subj body ih cc bcc atts fs t).success = true ↔
      (t.connectR = none ∧ t.starttlsR = none ∧ t.loginR = none ∧
        t.sendmailR = none ∧ t.quitR = none)) ∧
    (sendEmail s pw r subj body ih cc bcc atts fs t).errorMsg.isSome =
      !(sendEmail s pw r subj body ih cc bcc atts fs t).success := by
  obtain ⟨c, st, lg, sm, q⟩ := t
  cases c <;> cases st <;> cases lg <;> cases sm <;> cases q <;> simp [sendEmail]

/-- C10.  `divide_numbers` returns the exact quotient without raising for
every nonzero divisor, and raises `ValueError("Cannot divide by zero")`
for divisor zero. -/
theorem divide_numbers_spec (a b : ℚ) (h : b ≠ 0) :
    divide_numbers a b = Except.ok (a / b) ∧
    divide_numbers a 0 = Except.error "Cannot divide by zero" := by
  constructor
  · simp [divide_numbers, h]
  · simp [divide_numbers]

/-- C10, witness: dividing 1 by 2 yields the quotient, dividing by zero
raises. -/
theorem divide_numbers_spec_witness :
    divide_numbers (1 : ℚ) 2 = Except.ok (1 / 2) ∧
    divide_numbers (1 : ℚ) 0 = Except.error "Cannot divide by zero" :=
  divide_numbers_spec 1 2 (by norm_num)

/-- The part `_attach_file` contributes for a given path: the
`application/octet-stream` part with base64-encoded payload and
`attachment; filename= <basename>` disposition when the path is readable,
nothing when it is not. -/
def readablePart (fs : String → ReadResult) (path : String) : Option MimePart :=
  match fs path with
  | .ok bytes => some (MimePart.attachment "application" "octet-stream"
      (encodebytes bytes) ("attachment; filename= " ++ basename path))
  | .notFound => none
  | .failed _ => none

/-- The part component of `attachFile` is `readablePart`. -/
theorem attachFile_fst (fs : String → ReadResult) (path : String) :
    (attachFile fs path).1 = readablePart fs path := by
  cases h : fs path <;> simp [attachFile, readablePart, h]

/-- The parts of the attachment loop, as one `filterMap` over the paths. -/
theorem map_attachFile_fst (fs : String → ReadResult) (l : List String) :
    (l.map (attachFile fs)).filterMap Prod.fst = l.filterMap (readablePart fs) := by
  rw [List.filterMap_map]
  induction l with
  | nil => rfl
  | cons p rest ih =>
    rw [List.filterMap_cons, List.filterMap_cons, ih]
    simp only [Function.comp_apply, attachFile_fst]

/-- No part produced by the attachment loop is a text part. -/
theorem attach_parts_not_text (fs : String → ReadResult) (l : List String) :
    (l.filterMap (readablePart fs)).filter MimePart.isText = [] := by
  induction l with
  | nil => rfl
  | cons p rest ih =>
    rw [List.filterMap_cons]
    cases h : fs p with
    | ok bytes =>
        simp only [readablePart, h, List.filter_cons, MimePart.isText]
        simpa using ih
    | notFound => simpa only [readablePart, h] using ih
    | failed m => simpa only [readablePart, h] using ih

/-- Every part produced by the attachment loop survives the non-text
filter. -/
theorem attach_parts_filter_eq (fs : String → ReadResult) (l : List String) :
    (l.filterMap (readablePart fs)).filter (fun p => !p.isText) =
      l.filterMap (readablePart fs) := by
  induction l with
  | nil => rfl
  | cons p rest ih =>
    rw [List.filterMap_cons]
    cases h : fs p with
    | ok bytes =>
        simp only [readablePart, h, List.filter_cons, MimePart.isText]
        simpa using ih
    | notFound => simpa only [readablePart, h] using ih
    | failed m => simpa only [readablePart, h] using ih

/-- One attachment part per readable path. -/
theorem readablePart_length (fs : String → ReadResult) (l : List String) :
    (l.filterMap (readablePart fs)).length = (l.filter (isReadable fs)).length := by
  induction l with
  | nil => rfl
  | cons p rest ih =>
    cases h : fs p <;>
      simp [readablePart, h, isReadable, ih, List.filterMap_cons, List.filter_cons]

/-- One recorded warning per unreadable path. -/
theorem attach_warnings_length (fs : String → ReadResult) (l : List String) :
    ((l.map (attachFile fs)).filterMap Prod.snd).length =
      (l.filter (fun p => !isReadable fs p)).length := by
  rw [List.filterMap_map]
  induction l with
  | nil => rfl
  | cons p rest ih =>
    rw [List.filterMap_cons, List.filter_cons]
    cases h : fs p with
    | ok bytes =>
        simp only [Function.comp_apply, attachFile, h, isReadable]
        simpa using ih
    | notFound =>
        simp only [Function.comp_apply, attachFile, h, isReadable]
        simpa using ih
    | failed m =>
        simp only [Function.comp_apply, attachFile, h, isReadable]
        simpa using ih

/-- An untaken truthiness guard around the attachment loop maps the empty
list either way. -/
theorem truthy_map (fs : String → ReadResult) (l : List String) :
    (if truthy (some l) then l.map (attachFile fs) else []) = l.map (attachFile fs) := by
  cases l <;> simp [truthy]

/-- The envelope list, with the truthiness guards discharged. -/
theorem recipients_eq (r : String) (cc bcc : Option (List String)) :
    recipients r cc bcc = [r] ++ cc.getD [] ++ bcc.getD [] := by
  simp [recipients, truthy_getD]

/-- The parts of the composed message: the body part followed by one part
per readable attachment path. -/
theorem compose_parts_eq (s r subj body : String) (ihb : Bool)
    (cc atts : Option (List String)) (fs : String → ReadResult) :
    (composeMessage s r subj body ihb cc atts fs).1.parts =
      MimePart.text body (if ihb then "html" else "plain") ::
        (atts.getD []).filterMap (readablePart fs) := by
  cases atts with
  | none => simp [composeMessage, truthy]
  | some l => simp only [composeMessage, Option.getD_some, truthy_map, map_attachFile_fst]

/-- The recorded warnings of the composed message, as the warning
components of the attachment loop. -/
theorem compose_warnings_eq (s r subj body : String) (ihb : Bool)
    (cc atts : Option (List String)) (fs : String → ReadResult) :
    (composeMessage s r subj body ihb cc atts fs).2 =
      ((atts.getD []).map (attachFile fs)).filterMap Prod.snd := by
  cases atts with
  | none => simp [composeMessage, truthy]
  | some l => simp only [composeMessage, Option.getD_some, truthy_map]

/-- The headers of the composed message: From, To, Subject, and a Cc
holding the comma-joined cc addresses exactly when cc is truthy. -/
theorem compose_headers_eq (s r subj body : String) (ihb : Bool)
    (cc atts : Option (List String)) (fs : String → ReadResult) :
    (composeMessage s r subj body ihb cc atts fs).1.headers =
      if truthy cc
      then [("From", s), ("To", r), ("Subject", subj),
        ("Cc", String.intercalate ", " (cc.getD []))]
      else [("From", s), ("To", r), ("Subject", subj)] := by
  simp only [composeMessage]
  cases truthy cc <;> simp

/-- C5.  No `Bcc` key is ever among the composed headers (the headers are
built from sender, recipient, subject and cc only — `composeMessage` does
not even consume the bcc field), yet every bcc address is part of the
envelope handed to `server.sendmail`. -/
theorem compose_no_bcc_header_and_envelope_includes_bcc
    (s r subj body : String) (ihb : Bool) (cc bcc atts : Option (List String))
    (fs : String → ReadResult) (b : String) (hb : b ∈ bcc.getD []) :
    ((composeMessage s r subj body ihb cc atts fs).1.headers.all
      (fun kv => !(kv.1 == "Bcc")) = true) ∧
    b ∈ recipients r cc bcc := by
  constructor
  · rw [compose_headers_eq]
    cases truthy cc <;> rfl
  · rw [recipients_eq]
    exact List.mem_append_right _ hb

/-- C5, witness: a request with bcc `s@x.com` and no cc — the composed
headers carry no Bcc key and the envelope contains the bcc address. -/
theorem compose_no_bcc_header_witness :
    ((composeMessage "me@gmail.com" "r@x.com" "S" "B" false none none noFs).1.headers.all
      (fun kv => !(kv.1 == "Bcc")) = true) ∧
    "s@x.com" ∈ recipients "r@x.com" none (some ["s@x.com"]) :=
  compose_no_bcc_header_and_envelope_includes_bcc "me@gmail.com" "r@x.com" "S" "B"
    false none (some ["s@x.com"]) none noFs "s@x.com" (by simp)

/-- C6.  Compose produces exactly one body part: filtering the composed
parts to the text parts leaves precisely the `MIMEText` part, whose
subtype is `html` when `is_html` and `plain` otherwise and whose payload
is the body verbatim. -/
theorem compose_single_body_part (s r subj body : String) (ihb : Bool)
    (cc atts : Option (List String)) (fs : String → ReadResult) :
    (composeMessage s r subj body ihb cc atts fs).1.parts.filter MimePart.isText =
      [MimePart.text body (if ihb then "html" else "plain")] := by
  rw [compose_parts_eq, List.filter_cons]
  simp [MimePart.isText, attach_parts_not_text]

/-- C7.  For every attachment list, compose succeeds on every filesystem:
its non-text parts are exactly one part per readable path — the
`application/octet-stream` part whose payload is the base64 encoding of
the file bytes and whose disposition is
`attachment; filename= <basename>`, per `readablePart` and the
`attachFile` agreement conjunct — so their count is the number of
readable paths; the recorded warnings number the unreadable paths; and
the returned success of the enclosing send is the transport outcome
alone, unaffected by unreadable attachment paths. -/
theorem compose_attachment_behavior (s pw r subj body : String) (ihb : Bool)
    (cc bcc : Option (List String)) (atts : List String) (fs : String → ReadResult) :
    ((composeMessage s r subj body ihb cc (some atts) fs).1.parts.filter
        (fun p => !p.isText) = atts.filterMap (readablePart fs)) ∧
    (∀ path : String, (attachFile fs path).1 = readablePart fs path) ∧
    (atts.filterMap (readablePart fs)).length = (atts.filter (isReadable fs)).length ∧
    (composeMessage s r subj body ihb cc (some atts) fs).2.length =
      (atts.filter (fun p => !isReadable fs p)).length ∧
    ∀ t : Transport,
      (sendEmail s pw r subj body ihb cc bcc (some atts) fs t).success =
        (firstError t).isNone := by
  refine ⟨?_, attachFile_fst fs, readablePart_length fs atts, ?_, ?_⟩
  · rw [compose_parts_eq, List.filter_cons]
    simp only [MimePart.isText, Bool.not_true, Bool.false_eq_true, if_false,
      Option.getD_some, List.filter_eq_self]
    intro a hmem
    obtain ⟨x, hx, hra⟩ := List.mem_filterMap.mp hmem
    cases h : fs x with
    | ok bytes =>
        simp only [readablePart, h, Option.some.injEq] at hra
        subst hra
        rfl
    | notFound => simp [readablePart, h] at hra
    | failed m => simp [readablePart, h] at hra
  · rw [compose_warnings_eq]
    simpa using attach_warnings_length fs atts
  · intro t
    exact sendEmail_success_eq s pw r subj body ihb cc bcc (some atts) fs t

/-- C8.  The composed Cc header is the cc addresses joined in order by a
comma and a space when cc is present and non-empty, and absent when cc is
absent or empty. -/
theorem compose_cc_header_join (s r subj body : String) (ihb : Bool)
    (cc atts : Option (List String)) (fs : String → ReadResult) :
    ccHeader (composeMessage s r subj body ihb cc atts fs).1 =
      match cc with
      | some l => if l.isEmpty then none else some (String.intercalate ", " l)
      | none => none := by
  unfold ccHeader
  rw [compose_headers_eq]
  cases cc with
  | none => rfl
  | some l =>
    cases l with
    | nil => rfl
    | cons a as => rfl

/-- C9.  Compose is deterministic: in the embedding it is a pure function
of the request and the filesystem, so two calls on an identical request
agree on the headers and on the multiset of parts.  The source's only
request-independent datum, the random MIME boundary parameter of the
multipart container, is excluded from the comparison by the claim itself
(parts compared by content, not by any random identifier), and no header
value or part content produced by the source depends on time or
randomness. -/
theorem compose_deterministic (s r subj body : String) (ihb : Bool)
    (cc atts : Option (List String)) (fs : String → ReadResult) :
    (composeMessage s r subj body ihb cc atts fs).1.headers =
      (composeMessage s r subj body ihb cc atts fs).1.headers ∧
    ((composeMessage s r subj body ihb cc atts fs).1.parts : Multiset MimePart) =
      ((composeMessage s r subj body ihb cc atts fs).1.parts : Multiset MimePart) :=
  ⟨rfl, rfl⟩
